import Mathlib

/-!
Shallow embedding of `app/app.py` (docker-weather): the location resolver
`_parse_locations`, the refresh-interval reader `_get_refresh_interval`, the
upstream fetcher `_get_weather_data_for_coords`, the per-location cache
`get_weather_for_location`, the precipitation-probability extractor
`safe_extract_pop`, and the normalization pipeline `process_weather_data`.

Python's dynamically-typed JSON-like values are modelled by `PyVal`; Python
numbers (int and float) are modelled by `Rat`; fallible Python code is
modelled in `Except PyError`.
-/

/-- The Python exceptions that the embedded code can raise. -/
inductive PyError where
  | nameError (n : String)
  | valueError
  | typeError
  | attributeError
  | indexError
  | keyError
deriving DecidableEq, Repr

/-- Decidable equality for `Except`, so concrete runs can be settled by
`decide`. -/
instance {e a : Type} [DecidableEq e] [DecidableEq a] :
    DecidableEq (Except e a) := fun x y =>
  match x, y with
  | .ok u, .ok v =>
      if h : u = v then .isTrue (by rw [h])
      else .isFalse (by intro hh; injection hh; contradiction)
  | .error u, .error v =>
      if h : u = v then .isTrue (by rw [h])
      else .isFalse (by intro hh; injection hh; contradiction)
  | .ok u, .error v => .isFalse (by intro hh; cases hh)
  | .error u, .ok v => .isFalse (by intro hh; cases hh)

/-- A Python value as it can occur in the weather payloads: `None`, a bool,
a number (int or float, modelled by `Rat`), a string, a list, a
string-keyed dict (modelled as an insertion-ordered association list), or a
callable (function / bound method). -/
inductive PyVal where
  | none
  | bool (b : Bool)
  | num (q : Rat)
  | str (s : String)
  | list (xs : List PyVal)
  | dict (kvs : List (String × PyVal))
  | callable
deriving Repr

/-- Python truthiness (`bool(v)`). -/
def pyTruthy : PyVal → Bool
  | .none => false
  | .bool b => b
  | .num q => q != 0
  | .str s => s != ""
  | .list xs => !xs.isEmpty
  | .dict kvs => !kvs.isEmpty
  | .callable => true

/-- Python `a or b`. -/
def pyOr (a b : PyVal) : PyVal := if pyTruthy a then a else b

/-- Python `callable(v)`. -/
def PyVal.isCallable : PyVal → Bool
  | .callable => true
  | _ => false

/-- `d.get(k, dflt)` on a dict. -/
def pyDictGet (d : List (String × PyVal)) (k : String) (dflt : PyVal) : PyVal :=
  match d.lookup k with
  | some v => v
  | none => dflt

/-- `v.get(k, dflt)` on an arbitrary value: only dicts have `.get`;
anything else raises `AttributeError`. -/
def pyGet (v : PyVal) (k : String) (dflt : PyVal) : Except PyError PyVal :=
  match v with
  | .dict d => .ok (pyDictGet d k dflt)
  | _ => .error .attributeError

/-- The slice `v[:n]`: lists and strings slice, anything else raises
`TypeError` (ints are not subscriptable, dicts reject the unhashable
slice key). -/
def pySlice (v : PyVal) (n : Nat) : Except PyError PyVal :=
  match v with
  | .list xs => .ok (.list (xs.take n))
  | .str s => .ok (.str (String.mk (s.toList.take n)))
  | _ => .error .typeError

/-- The subscript `v[0]`: first element of a list (IndexError when empty),
first character of a string, an (absent) integer key on a string-keyed
dict (`KeyError`), `TypeError` otherwise. -/
def pyIndexZero (v : PyVal) : Except PyError PyVal :=
  match v with
  | .list [] => .error .indexError
  | .list (x :: _) => .ok x
  | .str s =>
      if s.toList.isEmpty then .error .indexError
      else .ok (.str (String.mk (s.toList.take 1)))
  | .dict _ => .error .keyError
  | _ => .error .typeError

/-- `for x in v`: lists yield their elements, strings their one-character
substrings, dicts their keys; anything else raises `TypeError`. -/
def pyIterate (v : PyVal) : Except PyError (List PyVal) :=
  match v with
  | .list xs => .ok xs
  | .str s => .ok (s.toList.map (fun c => .str c.toString))
  | .dict d => .ok (d.map (fun kv => .str kv.1))
  | _ => .error .typeError

/-- `{k: v for k, v in d.items() if not callable(v)}`. -/
def stripCallables (d : List (String × PyVal)) : List (String × PyVal) :=
  d.filter (fun kv => !kv.2.isCallable)

/-- Python `str.split(sep)` for a one-character separator, structurally
recursive so that concrete runs reduce in the kernel (the core `String`
splitters use well-founded recursion and do not). `split` of the empty
string is `[""]`, like Python's. -/
def splitChars (sep : Char) : List Char → List (List Char)
  | [] => [[]]
  | c :: cs =>
      match splitChars sep cs with
      | t :: ts => if c = sep then [] :: t :: ts else (c :: t) :: ts
      | [] => [[c]]

/-- Python `s.split(sep)` (no limit). -/
def pySplit (sep : Char) (s : String) : List String :=
  (splitChars sep s.toList).map String.mk

/-- Split at the first occurrence of `sep`, if any. -/
def splitFirstChars (sep : Char) : List Char → Option (List Char × List Char)
  | [] => none
  | c :: cs =>
      if c = sep then some ([], cs)
      else
        match splitFirstChars sep cs with
        | some (pre, post) => some (c :: pre, post)
        | none => none

/-- Python `s.split(sep, 1)`: one element when `sep` is absent, two
otherwise. -/
def pySplitFirst (sep : Char) (s : String) : List String :=
  match splitFirstChars sep s.toList with
  | some (pre, post) => [String.mk pre, String.mk post]
  | none => [s]

/-- Drop leading characters satisfying `p`. -/
def dropLeading (p : Char → Bool) : List Char → List Char
  | [] => []
  | c :: cs => if p c then dropLeading p cs else c :: cs

/-- Python `s.strip()`: whitespace removed from both ends. -/
def pyStrip (s : String) : String :=
  String.mk ((dropLeading Char.isWhitespace
      (dropLeading Char.isWhitespace s.toList).reverse).reverse)

/-- Python `c in s` for a single character. -/
def pyContainsChar (s : String) (c : Char) : Bool :=
  s.toList.contains c

/-- Lowercase every character (used for the exponent marker of a float
literal). -/
def pyLower (s : String) : String :=
  String.mk (s.toList.map Char.toLower)

/-- The numeric value of a string of decimal digits. -/
def digitsVal (s : String) : Nat :=
  s.toList.foldl (fun a c => a * 10 + (c.toNat - 48)) 0

/-- Whether `s` is a non-empty all-digit string. -/
def isDigitStr (s : String) : Bool :=
  !s.toList.isEmpty && s.toList.all Char.isDigit

/-- Split an optional leading sign off a numeric literal. -/
def splitSign (s : String) : Rat × String :=
  match s.toList with
  | '-' :: rest => (-1, String.mk rest)
  | '+' :: rest => (1, String.mk rest)
  | _ => (1, s)

/-- The mantissa of a float literal: digits with an optional decimal point,
at least one digit overall (Python accepts `"1."` and `".5"`). -/
def parseMantissa (s : String) : Option Rat :=
  match pySplit '.' s with
  | [i] => if isDigitStr i then some (digitsVal i : Rat) else none
  | [i, f] =>
      if (isDigitStr i || i == "") && (isDigitStr f || f == "") &&
         !(i.toList ++ f.toList).isEmpty
      then some ((digitsVal i : Rat) + (digitsVal f : Rat) / (10 : Rat) ^ f.toList.length)
      else none
  | _ => none

/-- An optionally signed exponent. -/
def parseExponent (s : String) : Option Int :=
  let (sg, r) : Int × String :=
    match s.toList with
    | '-' :: rest => (-1, String.mk rest)
    | '+' :: rest => (1, String.mk rest)
    | _ => (1, s)
  if isDigitStr r then some (sg * (digitsVal r : Int)) else none

/-- Models Python `float(str)` for finite decimal literals (optional sign,
optional fractional part, optional exponent, surrounding whitespace
stripped); `none` when Python would raise `ValueError`. -/
def strToRat? (s : String) : Option Rat := do
  let s := pyLower (pyStrip s)
  let (sg, s) := splitSign s
  let (mant, ex) ← match pySplit 'e' s with
    | [m] => do
        let mv ← parseMantissa m
        pure (mv, (0 : Int))
    | [m, e] => do
        let mv ← parseMantissa m
        let ev ← parseExponent e
        pure (mv, ev)
    | _ => none
  pure (sg * mant * (10 : Rat) ^ ex)

/-- Models Python `float(v)`: numbers pass through, bools become 0/1,
strings are parsed (`ValueError` on failure), everything else raises
`TypeError`. -/
def pyFloat : PyVal → Except PyError Rat
  | .num q => .ok q
  | .bool b => .ok (if b then 1 else 0)
  | .str s =>
      match strToRat? s with
      | some q => .ok q
      | none => .error .valueError
  | _ => .error .typeError

/-- Whether `float(v)` succeeds, i.e. `v` carries a numeric value. -/
def isNumericVal : PyVal → Bool
  | .num _ => true
  | .bool _ => true
  | .str s => (strToRat? s).isSome
  | _ => false

/-- `a * n` for a rational and an integer, multiplied through `Rat.divInt`:
`Rat.mul` is `@[irreducible]`, so concrete runs would not reduce in the
kernel with ordinary multiplication; `ratMulInt_eq` below identifies the
two. -/
def ratMulInt (a : Rat) (n : Int) : Rat := Rat.divInt (a.num * n) a.den

/-- Python `int(q)` on a float: truncation toward zero. -/
def pyInt (q : Rat) : Int :=
  if q < 0 then -((-q).floor) else q.floor

/-- Models Python `int(str)`: optional sign, decimal digits, surrounding
whitespace stripped; `none` when Python would raise `ValueError`. -/
def strToInt? (s : String) : Option Int :=
  let s := pyStrip s
  let (sg, r) : Int × String :=
    match s.toList with
    | '-' :: rest => (-1, String.mk rest)
    | '+' :: rest => (1, String.mk rest)
    | _ => (1, s)
  if isDigitStr r then some (sg * (digitsVal r : Int)) else none

/-! ### Timestamp formatting

`datetime.fromtimestamp(t).strftime(...)` converts epoch seconds to a
formatted local-time string; the host timezone is modelled as UTC (a fixed
environment-dependent offset the claims do not constrain). -/

/-- Proleptic-Gregorian civil date `(year, month, day)` from a count of days
since 1970-01-01. -/
def civilFromDays (z0 : Int) : Int × Int × Int :=
  let z := z0 + 719468
  let era := z.ediv 146097
  let doe := z - era * 146097
  let yoe := (doe - doe.ediv 1460 + doe.ediv 36524 - doe.ediv 146096).ediv 365
  let y := yoe + era * 400
  let doy := doe - (365 * yoe + yoe.ediv 4 - yoe.ediv 100)
  let mp := (5 * doy + 2).ediv 153
  let d := doy - (153 * mp + 2).ediv 5 + 1
  let m := mp + (if mp < 10 then 3 else -9)
  (y + (if m <= 2 then 1 else 0), m, d)

/-- Zero-pad to two digits (`%H`, `%M`, `%d`, `%m`). -/
def pad2 (n : Int) : String :=
  if 0 <= n && n < 10 then "0" ++ toString n else toString n

/-- Zero-pad to four digits (`%Y`). -/
def pad4 (n : Int) : String :=
  let s := toString n
  if 0 <= n && s.length < 4 then String.mk (List.replicate (4 - s.length) '0') ++ s
  else s

/-- Abbreviated weekday name (`%a`) for a count of days since the epoch
(1970-01-01 was a Thursday). -/
def weekdayAbbrev (days : Int) : String :=
  [ "Thu", "Fri", "Sat", "Sun", "Mon", "Tue", "Wed" ].getD (days.emod 7).toNat ""

/-- Days since the epoch of an epoch-seconds instant. -/
def daysOf (t : Int) : Int := t.ediv 86400

/-- Hour of day of an epoch-seconds instant. -/
def hourOf (t : Int) : Int := (t.emod 86400).ediv 3600

/-- Minute of hour of an epoch-seconds instant. -/
def minuteOf (t : Int) : Int := ((t.emod 86400).ediv 60).emod 60

/-- `strftime("%H:%M")`. -/
def strftimeHM (t : Int) : String :=
  pad2 (hourOf t) ++ ":" ++ pad2 (minuteOf t)

/-- `strftime("%H:%M %d.%m.%Y")`. -/
def strftimeHMdmY (t : Int) : String :=
  let c := civilFromDays (daysOf t)
  strftimeHM t ++ " " ++ pad2 c.2.2 ++ "." ++ pad2 c.2.1 ++ "." ++ pad4 c.1

/-- `strftime("%a %d.%m")`. -/
def strftimeAdm (t : Int) : String :=
  let c := civilFromDays (daysOf t)
  weekdayAbbrev (daysOf t) ++ " " ++ pad2 c.2.2 ++ "." ++ pad2 c.2.1

/-- `datetime.fromtimestamp(v)` reduced to the whole seconds our formats
use: numbers pass through (floored), bools are 0/1, anything else raises
`TypeError`. -/
def timestampFloorSecs (v : PyVal) : Except PyError Int :=
  match v with
  | .num q => .ok q.floor
  | .bool b => .ok (if b then 1 else 0)
  | _ => .error .typeError

/-! ### `safe_extract_pop` (app.py lines 159-174) -/

/-- `safe_extract_pop(hour_data)`: read `pop`, replace a callable by 0,
otherwise compute `float(pop or 0)`; return `min(100, max(0, int(pop*100)))`,
or 0 when anything raised (the `except` arm). -/
def safe_extract_pop (hour_data : List (String × PyVal)) : Int :=
  let pop0 := pyDictGet hour_data "pop" .none
  let popE : Except PyError Rat :=
    if pop0.isCallable then .ok 0
    else pyFloat (pyOr pop0 (.num 0))
  match popE with
  | .ok pop => min 100 (max 0 (pyInt (ratMulInt pop 100)))
  | .error _ => 0

/-! ### `process_weather_data` (app.py lines 176-235) -/

/-- The normalized record: `{"current": ..., "hourly": [...], "daily": [...]}`. -/
structure Processed where
  current : List (String × PyVal)
  hourly : List (List (String × PyVal))
  daily : List (List (String × PyVal))
deriving Repr

/-- The `"current"` sub-dict of the `processed` literal, evaluated in source
order; its `"time"` entry is built last, so a bad `dt` raises after the
weather lookups. -/
def processCurrent (current : PyVal) : Except PyError (List (String × PyVal)) := do
  let temp ← pyGet current "temp" (.str "N/A")
  let feels_like ← pyGet current "feels_like" (.str "N/A")
  let humidity ← pyGet current "humidity" (.str "N/A")
  let pressure ← pyGet current "pressure" (.str "N/A")
  let uvi ← pyGet current "uvi" (.str "N/A")
  let wind_speed ← pyGet current "wind_speed" (.str "N/A")
  let wHead ← pyGet current "weather" (.list [.dict []]) >>= pyIndexZero
  let weatherMain ← pyGet wHead "main" (.str "N/A")
  let iHead ← pyGet current "weather" (.list [.dict []]) >>= pyIndexZero
  let icon ← pyGet iHead "icon" (.str "")
  let dt ← pyGet current "dt" (.num 0)
  let t ← timestampFloorSecs dt
  pure [("temp", temp), ("feels_like", feels_like), ("humidity", humidity),
        ("pressure", pressure), ("uvi", uvi), ("wind_speed", wind_speed),
        ("weather", weatherMain), ("icon", icon),
        ("time", .str (strftimeHMdmY t))]

/-- One iteration of the hourly loop: strip callables (`hour.items()` raises
`AttributeError` on a non-dict), then build `processed_hour` in source
order. -/
def processHour (hour : PyVal) : Except PyError (List (String × PyVal)) := do
  let hour_copy ←
    match hour with
    | .dict d => Except.ok (stripCallables d)
    | _ => Except.error PyError.attributeError
  let t ← timestampFloorSecs (pyDictGet hour_copy "dt" (.num 0))
  let wHead ← pyIndexZero (pyDictGet hour_copy "weather" (.list [.dict []]))
  let weatherMain ← pyGet wHead "main" (.str "N/A")
  let iHead ← pyIndexZero (pyDictGet hour_copy "weather" (.list [.dict []]))
  let icon ← pyGet iHead "icon" (.str "")
  pure [("time", .str (strftimeHM t)),
        ("temp", pyDictGet hour_copy "temp" (.str "N/A")),
        ("humidity", pyDictGet hour_copy "humidity" (.str "N/A")),
        ("wind_speed", pyDictGet hour_copy "wind_speed" (.str "N/A")),
        ("weather", weatherMain), ("icon", icon),
        ("pop", .num (safe_extract_pop hour_copy : Rat))]

/-- One iteration of the daily loop: strip callables, take
`temps = day_copy.get("temp", {}) or {}`, then build `processed_day` in
source order (`temps.get` raises `AttributeError` when `temps` is a truthy
non-dict). -/
def processDay (day : PyVal) : Except PyError (List (String × PyVal)) := do
  let day_copy ←
    match day with
    | .dict d => Except.ok (stripCallables d)
    | _ => Except.error PyError.attributeError
  let temps := pyOr (pyDictGet day_copy "temp" (.dict [])) (.dict [])
  let t ← timestampFloorSecs (pyDictGet day_copy "dt" (.num 0))
  let temp_min ← pyGet temps "min" (.str "N/A")
  let temp_max ← pyGet temps "max" (.str "N/A")
  let wHead ← pyIndexZero (pyDictGet day_copy "weather" (.list [.dict []]))
  let weatherMain ← pyGet wHead "main" (.str "N/A")
  let iHead ← pyIndexZero (pyDictGet day_copy "weather" (.list [.dict []]))
  let icon ← pyGet iHead "icon" (.str "")
  pure [("date", .str (strftimeAdm t)),
        ("temp_min", temp_min), ("temp_max", temp_max),
        ("weather", weatherMain), ("icon", icon),
        ("pop", .num (safe_extract_pop day_copy : Rat))]

/-- `process_weather_data(data)`: on an empty payload return the all-empty
record, otherwise slice `hourly[:36]` and `daily[:10]`, build the current
conditions, then process each hourly and daily entry in order. -/
def process_weather_data (data : List (String × PyVal)) :
    Except PyError Processed := do
  if data.isEmpty then
    return ⟨[], [], []⟩
  let current := pyDictGet data "current" (.dict [])
  let hourlyV ← pySlice (pyDictGet data "hourly" (.list [])) 36
  let dailyV ← pySlice (pyDictGet data "daily" (.list [])) 10
  let currentOut ← processCurrent current
  let hourlyItems ← pyIterate hourlyV
  let hourlyOut ← hourlyItems.mapM processHour
  let dailyItems ← pyIterate dailyV
  let dailyOut ← dailyItems.mapM processDay
  pure ⟨currentOut, hourlyOut, dailyOut⟩

/-! ### `_parse_locations` (app.py lines 25-90) -/

/-- The environment variables `_parse_locations` reads (`os.getenv` yields
`none` for an unset variable). -/
structure Env where
  LOCATIONS : Option String := none
  LATITUDE : Option String := none
  LONGITUDE : Option String := none
  LOCATION_NAME : Option String := none
deriving DecidableEq, Repr

/-- One parsed location `{"id", "name", "lat", "lon"}`. -/
structure Location where
  id : String
  name : String
  lat : String
  lon : String
deriving DecidableEq, Repr

/-- Python `not v` on an optional string: true for an unset variable and
for the empty string. -/
def pyFalsyOpt (v : Option String) : Bool :=
  match v with
  | none => true
  | some s => s == ""

/-- One iteration of the `for idx, part in enumerate(raw.split(";"), start=1)`
loop: `ok none` for a skipped clause, `ok (some loc)` for a valid one, or the
exception the iteration raises. -/
def parseClause (idx : Nat) (part0 : String) : Except PyError (Option Location) :=
  let part := pyStrip part0
  if part == "" then .ok none
  else
    let (name, coords_part) :=
      if pyContainsChar part ':' then
        let pieces := pySplitFirst ':' part
        let name_part := pyStrip (pieces.headD "")
        (if name_part == "" then "Location " ++ toString idx else name_part,
         pieces.tail.headD "")
      else
        ("Location " ++ toString idx, part)
    -- Line 69 of app.py reads `coords+part.split(",", 1)`: the name `coords`
    -- is unbound (a typo for `coords_part`), so evaluating it raises
    -- NameError before any comma split happens, and the surrounding
    -- `except ValueError` does not catch a NameError.  `name` and
    -- `coords_part` are therefore dead bindings on every reachable path.
    let _ := name
    let _ := coords_part
    .error (.nameError "coords")

/-- The clause loop of `_parse_locations`: accumulates valid locations in
order, propagating any exception an iteration raises. -/
def parseLoop : Nat → List String → Except PyError (List Location)
  | _, [] => .ok []
  | idx, p :: ps => do
    match ← parseClause idx p with
    | none => parseLoop (idx + 1) ps
    | some loc => do
        let rest ← parseLoop (idx + 1) ps
        pure (loc :: rest)

/-- `_parse_locations()`: when `LOCATIONS` is unset or empty, fall back to
the single-location variables (empty list when latitude or longitude is
missing); otherwise run the clause loop over `raw.split(";")`. -/
def parse_locations (env : Env) : Except PyError (List Location) :=
  if pyFalsyOpt env.LOCATIONS then
    let lat := env.LATITUDE
    let lon := env.LONGITUDE
    let nm := env.LOCATION_NAME.getD "Your Location"
    if pyFalsyOpt lat || pyFalsyOpt lon then .ok []
    else .ok [{ id := "location-1", name := nm, lat := lat.getD "", lon := lon.getD "" }]
  else
    parseLoop 1 (pySplit ';' (env.LOCATIONS.getD ""))

/-! ### `_get_refresh_interval` (app.py lines 93-99) -/

/-- `_get_refresh_interval()`: `int(os.getenv("REFRESH_INTERVAL_SECONDS",
"600"))`, falling back to 600 on a `ValueError`. -/
def get_refresh_interval (envVal : Option String) : Int :=
  match strToInt? (envVal.getD "600") with
  | some n => n
  | none => 600

/-! ### `_get_weather_data_for_coords` (app.py lines 109-134)

The network is modelled as an explicit outcome the one `requests.get` call
would produce; the embedded function never raises, so it is a total
function of that outcome. -/

/-- What the upstream HTTP request would do if issued. -/
inductive NetOutcome where
  | timeout
  | requestFailure
  | response (status : Nat) (body : List (String × PyVal))

/-- The log lines `_get_weather_data_for_coords` can emit. -/
inductive LogEvent where
  | apiKeyMissing
  | requestTimeout (lat lon : String)
  | requestFailed (lat lon : String)
deriving DecidableEq, Repr

/-- Result of a fetch: the returned payload, the emitted log lines, and
whether the `requests.get` call was reached at all. -/
structure FetchResult where
  payload : List (String × PyVal)
  logs : List LogEvent
  attempted : Bool
deriving Repr

/-- `_get_weather_data_for_coords(lat, lon)`: short-circuit to `{}` when
`API_KEY` is unset or empty; otherwise issue the request and return `{}`
on a timeout, a request error, or a non-success status
(`raise_for_status` raises for 4xx/5xx, caught as a RequestException),
and the parsed JSON body otherwise.  The coordinates are interpolated
into the URL unvalidated. -/
def get_weather_data_for_coords (api_key : Option String) (lat lon : String)
    (net : NetOutcome) : FetchResult :=
  if pyFalsyOpt api_key then
    ⟨[], [.apiKeyMissing], false⟩
  else
    match net with
    | .timeout => ⟨[], [.requestTimeout lat lon], true⟩
    | .requestFailure => ⟨[], [.requestFailed lat lon], true⟩
    | .response status body =>
        if 400 <= status && status < 600 then
          ⟨[], [.requestFailed lat lon], true⟩
        else
          ⟨body, [], true⟩

/-! ### `get_weather_for_location` (app.py lines 137-157)

The module-global `_location_cache` becomes explicit state; `datetime`
instants become `Rat` seconds.  Cache entries are only ever created by
this function, so `if cached:` (a non-empty dict) and the
`isinstance(last_updated, datetime)` guard always pass on a hit. -/

/-- One cache entry `{"raw": ..., "last_updated": ...}`. -/
structure CacheEntry where
  raw : List (String × PyVal)
  last_updated : Rat
deriving Repr

/-- The `_location_cache` dict, keyed by the exact `(lat, lon)` string pair. -/
def LocationCache : Type := List ((String × String) × CacheEntry)

/-- Dict lookup in the cache. -/
def cacheFind (c : LocationCache) (k : String × String) : Option CacheEntry :=
  List.lookup k c

/-- Dict assignment `_location_cache[key] = entry` (overwrite in place). -/
def cacheStore (c : LocationCache) (k : String × String) (e : CacheEntry) :
    LocationCache :=
  (k, e) :: List.filter (fun kv => kv.1 != k) c

/-- `get_weather_for_location(lat, lon)`: serve the cached raw payload when
the entry is younger than the refresh interval, otherwise fetch, store the
result (whatever it is) with the current time, and return it.  `fetch`
abstracts `_get_weather_data_for_coords`; `now` is the current instant;
the returned flag records whether an upstream fetch was issued. -/
def get_weather_for_location (fetch : String → String → List (String × PyVal))
    (refreshEnv : Option String) (now : Rat) (cache : LocationCache)
    (lat lon : String) :
    List (String × PyVal) × LocationCache × Bool :=
  let cache_key := (lat, lon)
  let refresh_interval := get_refresh_interval refreshEnv
  match cacheFind cache cache_key with
  | some cached =>
      if now - cached.last_updated < (refresh_interval : Rat) then
        (cached.raw, cache, false)
      else
        let raw := fetch lat lon
        (raw, cacheStore cache cache_key ⟨raw, now⟩, true)
  | none =>
      let raw := fetch lat lon
      (raw, cacheStore cache cache_key ⟨raw, now⟩, true)

/-! ### Spec-side vocabulary

Definitions below follow the spec's words (well-shapedness of a payload,
sentinel substitution, the `pop` conversion formula); they exist to be
compared with the embedded code. -/

/-- The spec's `pop` conversion: truncate `fraction * 100` toward zero,
then clamp to `[0, 100]`. -/
def popSpec (f : Rat) : Int := min 100 (max 0 (pyInt (f * 100)))

/-- Keys of the normalized current-conditions object, in output order. -/
def currentKeys : List String :=
  ["temp", "feels_like", "humidity", "pressure", "uvi", "wind_speed",
   "weather", "icon", "time"]

/-- Keys of a normalized hourly entry, in output order. -/
def hourKeys : List String :=
  ["time", "temp", "humidity", "wind_speed", "weather", "icon", "pop"]

/-- Keys of a normalized daily entry, in output order. -/
def dayKeys : List String :=
  ["date", "temp_min", "temp_max", "weather", "icon", "pop"]

/-- Scalar fields of the current-conditions object. -/
def currentScalarKeys : List String :=
  ["temp", "feels_like", "humidity", "pressure", "uvi", "wind_speed"]

/-- Scalar fields of an hourly entry. -/
def hourScalarKeys : List String := ["temp", "humidity", "wind_speed"]

/-- Every listed scalar field that is absent from the source dict surfaces
in the output as the sentinel `"N/A"`. -/
def scalarSentinel (scalars : List String) (src out : List (String × PyVal)) :
    Prop :=
  ∀ k ∈ scalars, src.lookup k = none → out.lookup k = some (.str "N/A")

/-- An absent weather-descriptors list surfaces as category `"N/A"` and
icon `""`. -/
def weatherSentinel (src out : List (String × PyVal)) : Prop :=
  src.lookup "weather" = none →
    out.lookup "weather" = some (.str "N/A") ∧
    out.lookup "icon" = some (.str "")

/-- An absent nested temperature structure surfaces as sentinel min and max. -/
def tempSentinel (src out : List (String × PyVal)) : Prop :=
  src.lookup "temp" = none →
    out.lookup "temp_min" = some (.str "N/A") ∧
    out.lookup "temp_max" = some (.str "N/A")

/-- A `dt` value `datetime.fromtimestamp` accepts. -/
def goodDt (v : PyVal) : Bool :=
  match v with
  | .num _ => true
  | .bool _ => true
  | _ => false

/-- A `weather` value whose first element supports `.get`: a non-empty list
headed by a dict. -/
def goodWeatherVal (v : PyVal) : Bool :=
  match v with
  | .list (.dict _ :: _) => true
  | _ => false

/-- A `temp` value `temps.get` survives: falsy (replaced by `{}`) or a dict. -/
def goodTempVal (v : PyVal) : Bool :=
  !pyTruthy v ||
  (match v with
   | .dict _ => true
   | _ => false)

/-- A well-shaped hourly/daily entry: a dict whose (callable-stripped) `dt`
and `weather` fields, when present, are of the shape the pipeline consumes. -/
def goodEntry (v : PyVal) : Bool :=
  match v with
  | .dict d =>
      (match (stripCallables d).lookup "dt" with
       | some w => goodDt w
       | none => true) &&
      (match (stripCallables d).lookup "weather" with
       | some w => goodWeatherVal w
       | none => true)
  | _ => false

/-- A well-shaped daily entry: additionally its `temp` field, when present,
is falsy or a dict. -/
def goodDayEntry (v : PyVal) : Bool :=
  goodEntry v &&
  (match v with
   | .dict d =>
      (match (stripCallables d).lookup "temp" with
       | some w => goodTempVal w
       | none => true)
   | _ => false)

/-- A well-shaped `current` value (callables are not stripped here). -/
def goodCurrentVal (v : PyVal) : Bool :=
  match v with
  | .dict d =>
      (match d.lookup "dt" with
       | some w => goodDt w
       | none => true) &&
      (match d.lookup "weather" with
       | some w => goodWeatherVal w
       | none => true)
  | _ => false

/-- A well-shaped payload: its `current`, `hourly` and `daily` fields, when
present, are respectively a well-shaped current object, a list whose first
36 entries are well-shaped, and a list whose first 10 entries are
well-shaped. -/
def goodPayload (data : List (String × PyVal)) : Bool :=
  (match data.lookup "current" with
   | some v => goodCurrentVal v
   | none => true) &&
  (match data.lookup "hourly" with
   | some (.list xs) => (xs.take 36).all goodEntry
   | some _ => false
   | none => true) &&
  (match data.lookup "daily" with
   | some (.list xs) => (xs.take 10).all goodDayEntry
   | some _ => false
   | none => true)

/-- What a normalized hourly entry guarantees relative to its source entry:
all keys present in order, sentinel substitution for absent scalar fields
and for an absent weather-descriptors list. -/
def hourOutOk (src : PyVal) (out : List (String × PyVal)) : Prop :=
  out.map Prod.fst = hourKeys ∧
  ∀ d, src = .dict d →
    scalarSentinel hourScalarKeys (stripCallables d) out ∧
    weatherSentinel (stripCallables d) out

/-- What a normalized daily entry guarantees relative to its source entry. -/
def dayOutOk (src : PyVal) (out : List (String × PyVal)) : Prop :=
  out.map Prod.fst = dayKeys ∧
  ∀ d, src = .dict d →
    tempSentinel (stripCallables d) out ∧
    weatherSentinel (stripCallables d) out

/-- Concrete well-shaped payload used to exercise `normalize_good_total`. -/
def wPayload : List (String × PyVal) :=
  [("current", .dict [("temp", .num 5)]),
   ("hourly", .list [.dict []]),
   ("daily", .list [.dict []])]

/-- Concrete payload exercising `normalize_truncates`. -/
def wData7 : List (String × PyVal) :=
  [("hourly", .list [.dict []]), ("daily", .list [])]

/-- The record `process_weather_data` produces on `wData7`. -/
def wOut7 : Processed :=
  ⟨[("temp", .str "N/A"), ("feels_like", .str "N/A"), ("humidity", .str "N/A"),
    ("pressure", .str "N/A"), ("uvi", .str "N/A"), ("wind_speed", .str "N/A"),
    ("weather", .str "N/A"), ("icon", .str ""), ("time", .str "00:00 01.01.1970")],
   [[("time", .str "00:00"), ("temp", .str "N/A"), ("humidity", .str "N/A"),
     ("wind_speed", .str "N/A"), ("weather", .str "N/A"), ("icon", .str ""),
     ("pop", .num 0)]],
   []⟩

/-- Fetch operation used in the cache witness: a failed fetch returning the
empty payload. -/
def wFetch : String → String → List (String × PyVal) := fun _ _ => []

/-- The first witness call against the empty cache. -/
def wCall1 : List (String × PyVal) × LocationCache × Bool :=
  get_weather_for_location wFetch none 0 [] "47.0" "10.0"

/-! ### Helper lemmas -/

@[simp] theorem except_ok_bind {α β : Type} (a : α)
    (f : α → Except PyError β) :
    (Except.ok a : Except PyError α) >>= f = f a := rfl

@[simp] theorem except_error_bind {α β : Type} (e : PyError)
    (f : α → Except PyError β) :
    (Except.error e : Except PyError α) >>= f = Except.error e := rfl

@[simp] theorem except_pure_eq_ok {α : Type} (a : α) :
    (pure a : Except PyError α) = Except.ok a := rfl

theorem mapM_except_sound {α β : Type} (f : α → Except PyError β)
    (R : α → β → Prop) :
    ∀ xs : List α, (∀ x ∈ xs, ∃ y, f x = .ok y ∧ R x y) →
      ∃ ys, xs.mapM f = .ok ys ∧ List.Forall₂ R xs ys := by
  intro xs
  induction xs with
  | nil => exact fun _ => ⟨[], rfl, .nil⟩
  | cons a as ih =>
      intro h
      obtain ⟨y, hy, hR⟩ := h a (by simp)
      obtain ⟨ys, hys, hRs⟩ := ih (fun x hx => h x (by simp [hx]))
      exact ⟨y :: ys, by rw [List.mapM_cons, hy, except_ok_bind, hys]; rfl,
             .cons hR hRs⟩

theorem mapM_except_length {α β : Type} (f : α → Except PyError β) :
    ∀ (xs : List α) (ys : List β), xs.mapM f = .ok ys → ys.length = xs.length := by
  intro xs
  induction xs with
  | nil =>
      intro ys h
      rw [List.mapM_nil] at h
      cases h
      rfl
  | cons a as ih =>
      intro ys h
      rw [List.mapM_cons] at h
      cases hfa : f a with
      | error e => rw [hfa] at h; simp at h
      | ok y =>
          rw [hfa, except_ok_bind] at h
          cases hrest : as.mapM f with
          | error e => rw [hrest] at h; simp at h
          | ok ys' =>
              rw [hrest, except_ok_bind] at h
              cases h
              simp [ih ys' hrest]

theorem forall2_mem_right {α β : Type} {R : α → β → Prop}
    {xs : List α} {ys : List β} (h : List.Forall₂ R xs ys)
    {P : β → Prop} (hP : ∀ x y, R x y → P y) : ∀ y ∈ ys, P y := by
  induction h with
  | nil => intro y hy; cases hy
  | cons hR _ ih =>
      intro y hy
      cases hy with
      | head => exact hP _ _ hR
      | tail _ hmem => exact ih _ hmem

theorem pyDictGet_none {d : List (String × PyVal)} {k : String} {dflt : PyVal}
    (h : d.lookup k = none) : pyDictGet d k dflt = dflt := by
  simp [pyDictGet, h]

theorem pyDictGet_some {d : List (String × PyVal)} {k : String} {dflt v : PyVal}
    (h : d.lookup k = some v) : pyDictGet d k dflt = v := by
  simp [pyDictGet, h]

theorem dtChain (d : List (String × PyVal))
    (h : (match d.lookup "dt" with
          | some w => goodDt w
          | none => true) = true) :
    ∃ t, timestampFloorSecs (pyDictGet d "dt" (.num 0)) = .ok t := by
  cases hdt : d.lookup "dt" with
  | none => exact ⟨(0 : Rat).floor, by rw [pyDictGet_none hdt]; rfl⟩
  | some w =>
      rw [hdt] at h
      rw [pyDictGet_some hdt]
      cases w with
      | num q => exact ⟨_, rfl⟩
      | bool b => exact ⟨_, rfl⟩
      | none => simp [goodDt] at h
      | str s => simp [goodDt] at h
      | list xs => simp [goodDt] at h
      | dict kvs => simp [goodDt] at h
      | callable => simp [goodDt] at h

theorem weatherChain (d : List (String × PyVal))
    (h : (match d.lookup "weather" with
          | some w => goodWeatherVal w
          | none => true) = true) :
    ∃ wd : List (String × PyVal),
      pyIndexZero (pyDictGet d "weather" (.list [.dict []])) = .ok (.dict wd) ∧
      (d.lookup "weather" = none → wd = []) := by
  cases hw : d.lookup "weather" with
  | none => exact ⟨[], by rw [pyDictGet_none hw]; rfl, fun _ => rfl⟩
  | some w =>
      rw [hw] at h
      rw [pyDictGet_some hw]
      cases w with
      | list xs =>
          cases xs with
          | nil => simp [goodWeatherVal] at h
          | cons x rest =>
              cases x with
              | dict wd => exact ⟨wd, rfl, by simp [hw]⟩
              | none => simp [goodWeatherVal] at h
              | bool b => simp [goodWeatherVal] at h
              | num q => simp [goodWeatherVal] at h
              | str s => simp [goodWeatherVal] at h
              | list ys => simp [goodWeatherVal] at h
              | callable => simp [goodWeatherVal] at h
      | none => simp [goodWeatherVal] at h
      | bool b => simp [goodWeatherVal] at h
      | num q => simp [goodWeatherVal] at h
      | str s => simp [goodWeatherVal] at h
      | dict kvs => simp [goodWeatherVal] at h
      | callable => simp [goodWeatherVal] at h

theorem processHour_good (d : List (String × PyVal))
    (h : goodEntry (.dict d) = true) :
    ∃ out, processHour (.dict d) = .ok out ∧
      out.map Prod.fst = hourKeys ∧
      scalarSentinel hourScalarKeys (stripCallables d) out ∧
      weatherSentinel (stripCallables d) out := by
  simp only [goodEntry, Bool.and_eq_true] at h
  obtain ⟨hdt, hw⟩ := h
  obtain ⟨t, ht⟩ := dtChain _ hdt
  obtain ⟨wd, hwc, hw0⟩ := weatherChain _ hw
  refine ⟨[("time", .str (strftimeHM t)),
           ("temp", pyDictGet (stripCallables d) "temp" (.str "N/A")),
           ("humidity", pyDictGet (stripCallables d) "humidity" (.str "N/A")),
           ("wind_speed", pyDictGet (stripCallables d) "wind_speed" (.str "N/A")),
           ("weather", pyDictGet wd "main" (.str "N/A")),
           ("icon", pyDictGet wd "icon" (.str "")),
           ("pop", .num (safe_extract_pop (stripCallables d) : Rat))],
         ?_, ?_, ?_, ?_⟩
  · simp only [processHour, except_ok_bind, ht, hwc, pyGet, except_pure_eq_ok]
  · rfl
  · intro k hk hnone
    simp only [hourScalarKeys, List.mem_cons, List.not_mem_nil, or_false] at hk
    rcases hk with rfl | rfl | rfl <;>
      simp [List.lookup, pyDictGet_none hnone]
  · intro hwnone
    rw [hw0 hwnone]
    constructor <;> simp [List.lookup, pyDictGet]

theorem tempsChain (d : List (String × PyVal))
    (h : (match d.lookup "temp" with
          | some w => goodTempVal w
          | none => true) = true) :
    ∃ td, pyOr (pyDictGet d "temp" (.dict [])) (.dict []) = .dict td ∧
      (d.lookup "temp" = none → td = []) := by
  cases htv : d.lookup "temp" with
  | none => exact ⟨[], by rw [pyDictGet_none htv]; rfl, fun _ => rfl⟩
  | some w =>
      rw [htv] at h
      rw [pyDictGet_some htv]
      by_cases htr : pyTruthy w = true
      · cases w with
        | dict td =>
            exact ⟨td, by simp [pyOr, htr], fun hn => by cases hn⟩
        | none => simp [goodTempVal, htr] at h
        | bool b => simp [goodTempVal, htr] at h
        | num q => simp [goodTempVal, htr] at h
        | str s => simp [goodTempVal, htr] at h
        | list xs => simp [goodTempVal, htr] at h
        | callable => simp [goodTempVal, htr] at h
      · have hf : pyTruthy w = false := by revert htr; cases pyTruthy w <;> simp
        exact ⟨[], by simp [pyOr, hf], fun _ => rfl⟩

theorem processDay_good (d : List (String × PyVal))
    (h : goodDayEntry (.dict d) = true) :
    ∃ out, processDay (.dict d) = .ok out ∧
      out.map Prod.fst = dayKeys ∧
      tempSentinel (stripCallables d) out ∧
      weatherSentinel (stripCallables d) out := by
  simp only [goodDayEntry, goodEntry, Bool.and_eq_true] at h
  obtain ⟨⟨hdt, hw⟩, htemp⟩ := h
  obtain ⟨t, ht⟩ := dtChain _ hdt
  obtain ⟨wd, hwc, hw0⟩ := weatherChain _ hw
  obtain ⟨td, htd, htd0⟩ := tempsChain _ htemp
  refine ⟨[("date", .str (strftimeAdm t)),
           ("temp_min", pyDictGet td "min" (.str "N/A")),
           ("temp_max", pyDictGet td "max" (.str "N/A")),
           ("weather", pyDictGet wd "main" (.str "N/A")),
           ("icon", pyDictGet wd "icon" (.str "")),
           ("pop", .num (safe_extract_pop (stripCallables d) : Rat))],
         ?_, ?_, ?_, ?_⟩
  · simp only [processDay, except_ok_bind, ht, htd, hwc, pyGet, except_pure_eq_ok]
  · rfl
  · intro hnone
    rw [htd0 hnone]
    constructor <;> simp [List.lookup, pyDictGet]
  · intro hwnone
    rw [hw0 hwnone]
    constructor <;> simp [List.lookup, pyDictGet]

theorem processCurrent_good (c : List (String × PyVal))
    (h : goodCurrentVal (.dict c) = true) :
    ∃ out, processCurrent (.dict c) = .ok out ∧
      out.map Prod.fst = currentKeys ∧
      scalarSentinel currentScalarKeys c out ∧
      weatherSentinel c out := by
  simp only [goodCurrentVal, Bool.and_eq_true] at h
  obtain ⟨hdt, hw⟩ := h
  obtain ⟨t, ht⟩ := dtChain _ hdt
  obtain ⟨wd, hwc, hw0⟩ := weatherChain _ hw
  refine ⟨[("temp", pyDictGet c "temp" (.str "N/A")),
           ("feels_like", pyDictGet c "feels_like" (.str "N/A")),
           ("humidity", pyDictGet c "humidity" (.str "N/A")),
           ("pressure", pyDictGet c "pressure" (.str "N/A")),
           ("uvi", pyDictGet c "uvi" (.str "N/A")),
           ("wind_speed", pyDictGet c "wind_speed" (.str "N/A")),
           ("weather", pyDictGet wd "main" (.str "N/A")),
           ("icon", pyDictGet wd "icon" (.str "")),
           ("time", .str (strftimeHMdmY t))],
         ?_, ?_, ?_, ?_⟩
  · simp only [processCurrent, except_ok_bind, ht, hwc, pyGet, except_pure_eq_ok]
  · rfl
  · intro k hk hnone
    simp only [currentScalarKeys, List.mem_cons, List.not_mem_nil, or_false] at hk
    rcases hk with rfl | rfl | rfl | rfl | rfl | rfl <;>
      simp [List.lookup, pyDictGet_none hnone]
  · intro hwnone
    rw [hw0 hwnone]
    constructor <;> simp [List.lookup, pyDictGet]

theorem isEmpty_false_of_ne_nil {α : Type} {l : List α} (h : l ≠ []) :
    l.isEmpty = false := by
  cases l with
  | nil => exact absurd rfl h
  | cons a t => rfl

theorem current_stage (data : List (String × PyVal))
    (hcur : (match data.lookup "current" with
             | some v => goodCurrentVal v
             | none => true) = true) :
    ∃ c, pyDictGet data "current" (.dict []) = .dict c ∧
      goodCurrentVal (.dict c) = true := by
  cases hc : data.lookup "current" with
  | none => exact ⟨[], pyDictGet_none hc, rfl⟩
  | some v =>
      rw [hc] at hcur
      cases v with
      | dict cd => exact ⟨cd, pyDictGet_some hc, hcur⟩
      | none => simp [goodCurrentVal] at hcur
      | bool b => simp [goodCurrentVal] at hcur
      | num q => simp [goodCurrentVal] at hcur
      | str s => simp [goodCurrentVal] at hcur
      | list xs => simp [goodCurrentVal] at hcur
      | callable => simp [goodCurrentVal] at hcur

theorem hourly_stage (data : List (String × PyVal))
    (hhour : (match data.lookup "hourly" with
              | some (.list xs) => (xs.take 36).all goodEntry
              | some _ => false
              | none => true) = true) :
    ∃ hl, pySlice (pyDictGet data "hourly" (.list [])) 36 = .ok (.list hl) ∧
      (∀ x ∈ hl, goodEntry x = true) ∧
      (∀ hs, data.lookup "hourly" = some (.list hs) → hl = hs.take 36) := by
  cases hh : data.lookup "hourly" with
  | none =>
      refine ⟨[], by rw [pyDictGet_none hh]; rfl, by simp, ?_⟩
      intro hs heq
      simp at heq
  | some v =>
      rw [hh] at hhour
      cases v with
      | list hs =>
          refine ⟨hs.take 36, by rw [pyDictGet_some hh]; rfl, ?_, ?_⟩
          · intro x hx
            exact List.all_eq_true.mp hhour x hx
          · intro hs' heq
            injection heq with heq2
            injection heq2 with heq3
            rw [heq3]
      | none => simp at hhour
      | bool b => simp at hhour
      | num q => simp at hhour
      | str s => simp at hhour
      | dict kvs => simp at hhour
      | callable => simp at hhour

theorem daily_stage (data : List (String × PyVal))
    (hday : (match data.lookup "daily" with
             | some (.list xs) => (xs.take 10).all goodDayEntry
             | some _ => false
             | none => true) = true) :
    ∃ dl, pySlice (pyDictGet data "daily" (.list [])) 10 = .ok (.list dl) ∧
      (∀ x ∈ dl, goodDayEntry x = true) ∧
      (∀ ds, data.lookup "daily" = some (.list ds) → dl = ds.take 10) := by
  cases hh : data.lookup "daily" with
  | none =>
      refine ⟨[], by rw [pyDictGet_none hh]; rfl, by simp, ?_⟩
      intro ds heq
      simp at heq
  | some v =>
      rw [hh] at hday
      cases v with
      | list ds =>
          refine ⟨ds.take 10, by rw [pyDictGet_some hh]; rfl, ?_, ?_⟩
          · intro x hx
            exact List.all_eq_true.mp hday x hx
          · intro ds' heq
            injection heq with heq2
            injection heq2 with heq3
            rw [heq3]
      | none => simp at hday
      | bool b => simp at hday
      | num q => simp at hday
      | str s => simp at hday
      | dict kvs => simp at hday
      | callable => simp at hday

/-- C3 (amended): for every well-shaped payload, `process_weather_data`
terminates without raising and returns the fully-shaped record — all keys
of the current object and of every hourly/daily entry present in order,
with the sentinel `"N/A"` (empty string for the icon) substituted for each
absent upstream field. -/
theorem normalize_good_total (data : List (String × PyVal))
    (hgood : goodPayload data = true) :
    ∃ r, process_weather_data data = .ok r ∧
      (data = [] → r = ⟨[], [], []⟩) ∧
      (data ≠ [] →
        r.current.map Prod.fst = currentKeys ∧
        (∀ h ∈ r.hourly, h.map Prod.fst = hourKeys) ∧
        (∀ d ∈ r.daily, d.map Prod.fst = dayKeys) ∧
        (∀ c, pyDictGet data "current" (.dict []) = .dict c →
          scalarSentinel currentScalarKeys c r.current ∧
          weatherSentinel c r.current) ∧
        (∀ hs, data.lookup "hourly" = some (.list hs) →
          List.Forall₂ hourOutOk (hs.take 36) r.hourly) ∧
        (∀ ds, data.lookup "daily" = some (.list ds) →
          List.Forall₂ dayOutOk (ds.take 10) r.daily)) := by
  simp only [goodPayload, Bool.and_eq_true] at hgood
  obtain ⟨⟨hcur, hhour⟩, hday⟩ := hgood
  by_cases hne : data = []
  · subst hne
    exact ⟨⟨[], [], []⟩, rfl, fun _ => rfl, fun hco => absurd rfl hco⟩
  · have hie : data.isEmpty = false := isEmpty_false_of_ne_nil hne
    obtain ⟨c, hcd, hgc⟩ := current_stage data hcur
    obtain ⟨curOut, hcurok, hcurkeys, hcurscal, hcurw⟩ := processCurrent_good c hgc
    obtain ⟨hl, hsliceH, hallH, hrelH⟩ := hourly_stage data hhour
    obtain ⟨dl, hsliceD, hallD, hrelD⟩ := daily_stage data hday
    obtain ⟨hOut, hmapH, hF2H⟩ :=
      mapM_except_sound processHour hourOutOk hl (by
        intro x hx
        have hgx := hallH x hx
        cases x with
        | dict dd =>
            obtain ⟨out, ho, hk, hsc, hwe⟩ := processHour_good dd hgx
            refine ⟨out, ho, hk, ?_⟩
            intro dd' heq
            injection heq with h2
            subst h2
            exact ⟨hsc, hwe⟩
        | none => simp [goodEntry] at hgx
        | bool b => simp [goodEntry] at hgx
        | num q => simp [goodEntry] at hgx
        | str s => simp [goodEntry] at hgx
        | list ys => simp [goodEntry] at hgx
        | callable => simp [goodEntry] at hgx)
    obtain ⟨dOut, hmapD, hF2D⟩ :=
      mapM_except_sound processDay dayOutOk dl (by
        intro x hx
        have hgx := hallD x hx
        cases x with
        | dict dd =>
            obtain ⟨out, ho, hk, htm, hwe⟩ := processDay_good dd (by
              simpa [goodDayEntry] using hgx)
            refine ⟨out, ho, hk, ?_⟩
            intro dd' heq
            injection heq with h2
            subst h2
            exact ⟨htm, hwe⟩
        | none => simp [goodDayEntry, goodEntry] at hgx
        | bool b => simp [goodDayEntry, goodEntry] at hgx
        | num q => simp [goodDayEntry, goodEntry] at hgx
        | str s => simp [goodDayEntry, goodEntry] at hgx
        | list ys => simp [goodDayEntry, goodEntry] at hgx
        | callable => simp [goodDayEntry, goodEntry] at hgx)
    refine ⟨⟨curOut, hOut, dOut⟩, ?_, fun hco => absurd hco hne,
            fun _ => ⟨hcurkeys, ?_, ?_, ?_, ?_, ?_⟩⟩
    · simp only [process_weather_data, hie, Bool.false_eq_true, if_false,
        hsliceH, hsliceD, hcd, hcurok, pyIterate, hmapH, hmapD,
        except_ok_bind, except_pure_eq_ok]
    · exact forall2_mem_right hF2H (fun x y hy => hy.1)
    · exact forall2_mem_right hF2D (fun x y hy => hy.1)
    · intro c' heq
      rw [hcd] at heq
      injection heq with h2
      subst h2
      exact ⟨hcurscal, hcurw⟩
    · intro hs' heq
      rw [← hrelH hs' heq]
      exact hF2H
    · intro ds' heq
      rw [← hrelD ds' heq]
      exact hF2D

/-- C8: `normalize` applied to the empty payload returns exactly the record
with empty current conditions and empty hourly and daily sequences. -/
theorem normalize_empty_payload :
    process_weather_data [] = .ok ⟨[], [], []⟩ := rfl

/-- C3 counterexample: the claim says `normalize` is total, in particular on
a payload whose `hourly` field is not a list; on `{"hourly": 1}` the code
raises a `TypeError` (from `data.get("hourly", [])[:36]`) instead of
returning a record. -/
theorem normalize_not_total :
    process_weather_data [("hourly", .num 1)] = .error .typeError := rfl

theorem normalize_good_total_witness :
    (process_weather_data wPayload).isOk = true := by
  obtain ⟨r, hr, -, -⟩ := normalize_good_total wPayload rfl
  rw [hr]
  rfl

/-- C1: evaluating the location resolver at the spec's own example
`"Home:47.0,10.0;Office:47.1,10.2"` raises `NameError` (the unbound name
`coords` on line 69, a typo for `coords_part`), instead of returning the
two locations the claim describes. -/
theorem parse_locations_example_raises :
    parse_locations { LOCATIONS := some "Home:47.0,10.0;Office:47.1,10.2" } =
      .error (.nameError "coords") := by decide

/-- C2: evaluating the location resolver at the spec's skip example
`"47.0,10.0;;bad"` raises `NameError` on the first non-empty clause (the
unbound name `coords` on line 69), instead of skipping the malformed
clauses and returning one location. -/
theorem parse_locations_skip_example_raises :
    parse_locations { LOCATIONS := some "47.0,10.0;;bad" } =
      .error (.nameError "coords") := by decide

/-- C7: whenever the payload's `hourly` and `daily` fields are lists and
normalization succeeds, the output has at most 36 hourly and 10 daily
entries, and they are exactly the processed images of the first 36
(resp. 10) upstream entries, in their original order. -/
theorem normalize_truncates (data : List (String × PyVal)) (hs ds : List PyVal)
    (r : Processed)
    (hH : data.lookup "hourly" = some (.list hs))
    (hD : data.lookup "daily" = some (.list ds))
    (hok : process_weather_data data = .ok r) :
    r.hourly.length ≤ 36 ∧ r.daily.length ≤ 10 ∧
    (hs.take 36).mapM processHour = .ok r.hourly ∧
    (ds.take 10).mapM processDay = .ok r.daily ∧
    r.hourly.length = (hs.take 36).length ∧
    r.daily.length = (ds.take 10).length := by
  have hne : data ≠ [] := by
    intro h
    rw [h] at hH
    simp at hH
  have hie : data.isEmpty = false := isEmpty_false_of_ne_nil hne
  simp only [process_weather_data, hie, Bool.false_eq_true, if_false,
    pyDictGet_some hH, pyDictGet_some hD, pySlice, pyIterate,
    except_ok_bind, except_pure_eq_ok] at hok
  cases hc : processCurrent (pyDictGet data "current" (.dict [])) with
  | error e => rw [hc] at hok; simp at hok
  | ok curOut =>
      rw [hc, except_ok_bind] at hok
      cases hm : (hs.take 36).mapM processHour with
      | error e => rw [hm] at hok; simp at hok
      | ok hOut =>
          rw [hm, except_ok_bind] at hok
          cases hd2 : (ds.take 10).mapM processDay with
          | error e => rw [hd2] at hok; simp at hok
          | ok dOut =>
              rw [hd2, except_ok_bind] at hok
              injection hok with hok2
              subst hok2
              have lh := mapM_except_length processHour _ _ hm
              have ld := mapM_except_length processDay _ _ hd2
              refine ⟨?_, ?_, ?_, ?_, ?_, ?_⟩
              · show hOut.length ≤ 36
                rw [lh, List.length_take]
                exact min_le_left _ _
              · show dOut.length ≤ 10
                rw [ld, List.length_take]
                exact min_le_left _ _
              · rfl
              · rfl
              · exact lh
              · exact ld

theorem normalize_truncates_witness :
    wOut7.hourly.length ≤ 36 ∧ wOut7.daily.length ≤ 10 ∧
    ([PyVal.dict []].take 36).mapM processHour = .ok wOut7.hourly ∧
    (([] : List PyVal).take 10).mapM processDay = .ok wOut7.daily ∧
    wOut7.hourly.length = ([PyVal.dict []].take 36).length ∧
    wOut7.daily.length = (([] : List PyVal).take 10).length :=
  normalize_truncates wData7 [.dict []] [] wOut7 rfl rfl (by rfl)

theorem ratMulInt_eq (a : Rat) (n : Int) : ratMulInt a n = a * n := by
  rw [ratMulInt, Rat.divInt_eq_div]
  push_cast
  rw [mul_comm (a.num : Rat) (n : Rat), mul_div_assoc, Rat.num_div_den, mul_comm]

theorem ratFloor_eq_intFloor (q : Rat) : q.floor = ⌊q⌋ := by
  rw [Rat.floor_def', Rat.floor_def]

theorem pyInt_zero_mul : pyInt (ratMulInt 0 100) = 0 := by
  rw [ratMulInt_eq]
  norm_num [pyInt, ratFloor_eq_intFloor]

theorem safe_extract_pop_range (d : List (String × PyVal)) :
    0 ≤ safe_extract_pop d ∧ safe_extract_pop d ≤ 100 := by
  simp only [safe_extract_pop]
  constructor
  · split
    · exact le_min (by norm_num) (le_max_left 0 _)
    · exact le_refl 0
  · split
    · exact min_le_left _ _
    · norm_num

theorem safe_extract_pop_num (d : List (String × PyVal)) (f : Rat)
    (h : d.lookup "pop" = some (.num f)) :
    safe_extract_pop d = popSpec f := by
  unfold safe_extract_pop popSpec
  rw [pyDictGet_some h]
  by_cases hf : f = 0
  · subst hf
    simp [PyVal.isCallable, pyOr, pyTruthy, pyFloat, ratMulInt_eq]
  · have ht : pyTruthy (.num f) = true := by simp [pyTruthy, hf]
    simp [PyVal.isCallable, pyOr, ht, pyFloat, ratMulInt_eq]

theorem safe_extract_pop_absent (d : List (String × PyVal))
    (h : d.lookup "pop" = none) : safe_extract_pop d = 0 := by
  unfold safe_extract_pop
  rw [pyDictGet_none h]
  simp [PyVal.isCallable, pyOr, pyTruthy, pyFloat, pyInt_zero_mul]

theorem safe_extract_pop_nonnum (d : List (String × PyVal)) (v : PyVal)
    (h : d.lookup "pop" = some v) (hn : isNumericVal v = false) :
    safe_extract_pop d = 0 := by
  unfold safe_extract_pop
  rw [pyDictGet_some h]
  cases v with
  | num q => simp [isNumericVal] at hn
  | bool b => simp [isNumericVal] at hn
  | callable => simp [PyVal.isCallable, pyInt_zero_mul]
  | none => simp [PyVal.isCallable, pyOr, pyTruthy, pyFloat, pyInt_zero_mul]
  | str s =>
      simp only [isNumericVal] at hn
      have hnone : strToRat? s = none := by
        cases hcase : strToRat? s with
        | none => rfl
        | some q => rw [hcase] at hn; simp at hn
      by_cases hs : s = ""
      · subst hs
        simp [PyVal.isCallable, pyOr, pyTruthy, pyFloat, pyInt_zero_mul]
      · simp [PyVal.isCallable, pyOr, pyTruthy, hs, pyFloat, hnone]
  | list xs =>
      cases xs with
      | nil => simp [PyVal.isCallable, pyOr, pyTruthy, pyFloat, pyInt_zero_mul]
      | cons a t => simp [PyVal.isCallable, pyOr, pyTruthy, pyFloat]
  | dict kvs =>
      cases kvs with
      | nil => simp [PyVal.isCallable, pyOr, pyTruthy, pyFloat, pyInt_zero_mul]
      | cons a t => simp [PyVal.isCallable, pyOr, pyTruthy, pyFloat]

/-- C5: `safe_extract_pop` always yields an integer in `[0, 100]`; a present
numeric fraction `f` yields `trunc(f * 100)` clamped to `[0, 100]` (so
`0.734` gives 73 and `1.5` gives 100); an absent or non-numeric `pop`
yields 0. -/
theorem pop_extraction_correct :
    (∀ d : List (String × PyVal),
      (0 ≤ safe_extract_pop d ∧ safe_extract_pop d ≤ 100) ∧
      (∀ f : Rat, d.lookup "pop" = some (.num f) →
        safe_extract_pop d = popSpec f) ∧
      (d.lookup "pop" = none → safe_extract_pop d = 0) ∧
      (∀ v, d.lookup "pop" = some v → isNumericVal v = false →
        safe_extract_pop d = 0)) ∧
    safe_extract_pop [("pop", .num (mkRat 734 1000))] = 73 ∧
    (mkRat 734 1000 : Rat) = 734 / 1000 ∧
    safe_extract_pop [("pop", .num (mkRat 3 2))] = 100 ∧
    (mkRat 3 2 : Rat) = 3 / 2 := by
  refine ⟨fun d => ⟨safe_extract_pop_range d, safe_extract_pop_num d,
    safe_extract_pop_absent d, safe_extract_pop_nonnum d⟩,
    by decide, ?_, by decide, ?_⟩
  · rw [Rat.mkRat_eq_div]; norm_num
  · rw [Rat.mkRat_eq_div]; norm_num

theorem pop_extraction_correct_witness :
    safe_extract_pop [("pop", PyVal.str "abc")] = 0 ∧
    safe_extract_pop [] = 0 :=
  ⟨(pop_extraction_correct.1 [("pop", .str "abc")]).2.2.2 (.str "abc") rfl
      (by decide),
   (pop_extraction_correct.1 []).2.2.1 rfl⟩

/-- C4: starting from a cache without an entry for `(lat, lon)`, the first
call fetches, stores the fetched payload with `fetched_at = now`, and a
second call strictly within the refresh interval returns the cached
payload unchanged with no upstream fetch, while a second call at or after
the interval fetches again and re-stores with the new time. -/
theorem cache_policy (fetch : String → String → List (String × PyVal))
    (refreshEnv : Option String) (t1 t2 : Rat) (cache0 : LocationCache)
    (lat lon : String)
    (h0 : cacheFind cache0 (lat, lon) = none) :
    (get_weather_for_location fetch refreshEnv t1 cache0 lat lon).2.2 = true ∧
    (get_weather_for_location fetch refreshEnv t1 cache0 lat lon).1 =
      fetch lat lon ∧
    cacheFind (get_weather_for_location fetch refreshEnv t1 cache0 lat lon).2.1
        (lat, lon) = some ⟨fetch lat lon, t1⟩ ∧
    (t2 - t1 < (get_refresh_interval refreshEnv : Rat) →
      get_weather_for_location fetch refreshEnv t2
          (get_weather_for_location fetch refreshEnv t1 cache0 lat lon).2.1
          lat lon =
        (fetch lat lon,
         (get_weather_for_location fetch refreshEnv t1 cache0 lat lon).2.1,
         false)) ∧
    (¬ t2 - t1 < (get_refresh_interval refreshEnv : Rat) →
      (get_weather_for_location fetch refreshEnv t2
          (get_weather_for_location fetch refreshEnv t1 cache0 lat lon).2.1
          lat lon).2.2 = true ∧
      cacheFind (get_weather_for_location fetch refreshEnv t2
          (get_weather_for_location fetch refreshEnv t1 cache0 lat lon).2.1
          lat lon).2.1 (lat, lon) = some ⟨fetch lat lon, t2⟩) := by
  have e1 : get_weather_for_location fetch refreshEnv t1 cache0 lat lon =
      (fetch lat lon, cacheStore cache0 (lat, lon) ⟨fetch lat lon, t1⟩, true) := by
    simp only [get_weather_for_location]
    rw [h0]
  have hfind : cacheFind (cacheStore cache0 (lat, lon) ⟨fetch lat lon, t1⟩)
      (lat, lon) = some ⟨fetch lat lon, t1⟩ := by
    unfold cacheFind cacheStore
    simp [List.lookup]
  rw [e1]
  refine ⟨rfl, rfl, hfind, ?_, ?_⟩
  · intro hlt
    simp [get_weather_for_location, hfind, hlt]
  · intro hge
    constructor
    · simp [get_weather_for_location, hfind, hge]
    · simp [get_weather_for_location, hfind, hge, cacheFind, cacheStore,
        List.lookup]

theorem cache_policy_witness :
    wCall1.2.2 = true ∧
    wCall1.1 = wFetch "47.0" "10.0" ∧
    cacheFind wCall1.2.1 ("47.0", "10.0") = some ⟨wFetch "47.0" "10.0", 0⟩ ∧
    ((1 : Rat) - 0 < (get_refresh_interval none : Rat) →
      get_weather_for_location wFetch none 1 wCall1.2.1 "47.0" "10.0" =
        (wFetch "47.0" "10.0", wCall1.2.1, false)) ∧
    (¬ (1 : Rat) - 0 < (get_refresh_interval none : Rat) →
      (get_weather_for_location wFetch none 1 wCall1.2.1 "47.0" "10.0").2.2 =
        true ∧
      cacheFind (get_weather_for_location wFetch none 1 wCall1.2.1
          "47.0" "10.0").2.1 ("47.0", "10.0") =
        some ⟨wFetch "47.0" "10.0", 1⟩) :=
  cache_policy wFetch none 0 1 [] "47.0" "10.0" rfl

/-- C6 (amended): the fetcher never raises; a missing or empty API key
short-circuits to the empty payload with a logged configuration error and
no request; with a key present, a timeout, request error or non-success
status is logged with the offending coordinates and yields the empty
payload.  (The code does not validate the coordinates.) -/
theorem fetch_never_raises (key : Option String) (lat lon : String) :
    (∀ net, pyFalsyOpt key = true →
      get_weather_data_for_coords key lat lon net =
        ⟨[], [.apiKeyMissing], false⟩) ∧
    (pyFalsyOpt key = false →
      get_weather_data_for_coords key lat lon .timeout =
        ⟨[], [.requestTimeout lat lon], true⟩ ∧
      get_weather_data_for_coords key lat lon .requestFailure =
        ⟨[], [.requestFailed lat lon], true⟩ ∧
      (∀ s b, 400 ≤ s → s < 600 →
        get_weather_data_for_coords key lat lon (.response s b) =
          ⟨[], [.requestFailed lat lon], true⟩)) := by
  constructor
  · intro net hkey
    simp [get_weather_data_for_coords, hkey]
  · intro hkey
    refine ⟨?_, ?_, ?_⟩
    · simp [get_weather_data_for_coords, hkey]
    · simp [get_weather_data_for_coords, hkey]
    · intro s b h1 h2
      simp [get_weather_data_for_coords, hkey, h1, h2]

/-- C6 counterexample: with a valid API key but missing (empty) coordinates,
the network call is attempted anyway and its body is returned — there is no
coordinate check short-circuiting to an empty payload. -/
theorem fetch_no_coordinate_check :
    get_weather_data_for_coords (some "key") "" ""
        (.response 200 [("current", .num 1)]) =
      ⟨[("current", .num 1)], [], true⟩ ∧
    ([("current", .num 1)] : List (String × PyVal)) ≠ [] :=
  ⟨rfl, by simp⟩

theorem fetch_never_raises_witness :
    get_weather_data_for_coords (none : Option String) "1" "2" .timeout =
      ⟨[], [.apiKeyMissing], false⟩ ∧
    get_weather_data_for_coords (some "k") "1" "2" .timeout =
      ⟨[], [.requestTimeout "1" "2"], true⟩ ∧
    get_weather_data_for_coords (some "k") "1" "2" (.response 500 []) =
      ⟨[], [.requestFailed "1" "2"], true⟩ :=
  ⟨(fetch_never_raises none "1" "2").1 .timeout rfl,
   ((fetch_never_raises (some "k") "1" "2").2 rfl).1,
   ((fetch_never_raises (some "k") "1" "2").2 rfl).2.2 500 [] (by norm_num)
     (by norm_num)⟩

/-- C9: with no multi-location configuration string, the resolver returns a
single `location-1` built from the separate latitude/longitude/name values
(so `47.0`/`10.0`/`Test` gives `location-1`/`Test`), and the empty list
when latitude or longitude is missing or empty. -/
theorem single_location_fallback :
    (∀ env : Env, env.LOCATIONS = none →
      ((pyFalsyOpt env.LATITUDE = true ∨ pyFalsyOpt env.LONGITUDE = true) →
        parse_locations env = .ok []) ∧
      (∀ lat lon, env.LATITUDE = some lat → lat ≠ "" →
        env.LONGITUDE = some lon → lon ≠ "" →
        parse_locations env =
          .ok [⟨"location-1", env.LOCATION_NAME.getD "Your Location",
                lat, lon⟩])) ∧
    parse_locations { LATITUDE := some "47.0", LONGITUDE := some "10.0",
                      LOCATION_NAME := some "Test" } =
      .ok [⟨"location-1", "Test", "47.0", "10.0"⟩] := by
  constructor
  · intro env h
    have hl : pyFalsyOpt env.LOCATIONS = true := by rw [h]; rfl
    constructor
    · intro hfal
      have hc : (pyFalsyOpt env.LATITUDE || pyFalsyOpt env.LONGITUDE) = true := by
        rcases hfal with hf | hf <;> simp [hf]
      simp [parse_locations, hl, hc]
    · intro lat lon hlat hne1 hlon hne2
      have hla : pyFalsyOpt (some lat) = false := by simp [pyFalsyOpt, hne1]
      have hlo : pyFalsyOpt (some lon) = false := by simp [pyFalsyOpt, hne2]
      simp [parse_locations, hl, hla, hlo, hlat, hlon]
  · rfl

theorem single_location_fallback_witness :
    parse_locations { LOCATIONS := none, LATITUDE := some "47.0" } = .ok [] :=
  ((single_location_fallback.1 { LOCATIONS := none, LATITUDE := some "47.0" }
      rfl).1) (Or.inr rfl)

/-- C10: in the single-location fallback with latitude and longitude
present, an absent location-name value yields the default name
`"Your Location"`. -/
theorem fallback_default_name (env : Env) (hloc : env.LOCATIONS = none)
    (hname : env.LOCATION_NAME = none) (lat lon : String)
    (hlat : env.LATITUDE = some lat) (hne1 : lat ≠ "")
    (hlon : env.LONGITUDE = some lon) (hne2 : lon ≠ "") :
    parse_locations env = .ok [⟨"location-1", "Your Location", lat, lon⟩] := by
  have hl : pyFalsyOpt env.LOCATIONS = true := by rw [hloc]; rfl
  have hla : pyFalsyOpt (some lat) = false := by simp [pyFalsyOpt, hne1]
  have hlo : pyFalsyOpt (some lon) = false := by simp [pyFalsyOpt, hne2]
  simp [parse_locations, hl, hla, hlo, hlat, hlon, hname]

theorem fallback_default_name_witness :
    parse_locations { LOCATIONS := none, LATITUDE := some "47.0",
                      LONGITUDE := some "10.0", LOCATION_NAME := none } =
      .ok [⟨"location-1", "Your Location", "47.0", "10.0"⟩] :=
  fallback_default_name _ rfl rfl "47.0" "10.0" rfl (by decide) rfl (by decide)
